import Mathlib

/-!
Verification of the friendtech-platform bonding-curve pricing engine.

The definitions below are a shallow embedding of the TypeScript sources:
`AdvancedBondingCurveCalculator` (calculatePrice, calculateDynamicK,
calculateTradePrice, calculateAdjustedMaxSlippage, calculateDynamicFeeRate,
calculateOptimalTradeSize, calculateLiquidityScore) and `PricingEngine`
(assessRisk, updateMarketConditions).

Modelling conventions:
- JavaScript `number` arithmetic is modelled by exact rationals (ℚ); decimal
  literals such as 1.2 or 0.05 are taken as the exact rationals 12/10, 5/100.
- `bigint` values are modelled by ℤ; bigint division truncates toward zero,
  which is `Int.tdiv`.
- `Date.now()` is passed in explicitly as `nowMs`, and the `Math.random()`
  component of the quote deadline is passed in as `randomDelay`, so every
  function is pure.
- A JavaScript floating-point division whose denominator is zero yields
  Infinity / -Infinity / NaN; the price-impact computation can hit that case,
  so its result is modelled by the sum type `JsNum`.
- `throw` is modelled by `Except CurveError`.
-/

/-- The error cases thrown by the calculator:
`Supply cannot exceed total supply`, `Invalid trade amount`,
`Price impact too high`. -/
inductive CurveError where
  | invalidSupply
  | invalidTrade
  | slippageExceeded
deriving Repr, DecidableEq

/-- The fields of the `CreatorCoin` record that the pricing engine reads:
`marketCap` and `tradingVolume24h` are bigints in base units (18 decimals),
`priceChange24h` is a plain number. -/
structure CreatorCoin where
  marketCap : ℤ
  tradingVolume24h : ℤ
  priceChange24h : ℚ
deriving Repr, DecidableEq

/-- Constructor parameters of `AdvancedBondingCurveCalculator`. -/
structure CurveParams where
  baseK : ℚ
  totalSupply : ℤ
  maxSlippage : ℚ
  creatorMultiplier : ℚ
  volumeMultiplier : ℚ
  timeDecayFactor : ℚ
deriving Repr, DecidableEq

/-- The default constructor arguments:
`baseK = 0.0001, totalSupply = 1e9, maxSlippage = 0.05,
creatorMultiplier = 1.0, volumeMultiplier = 1.0, timeDecayFactor = 0.95`. -/
def defaultParams : CurveParams :=
  { baseK := 1 / 10000
    totalSupply := 10 ^ 9
    maxSlippage := 1 / 20
    creatorMultiplier := 1
    volumeMultiplier := 1
    timeDecayFactor := 19 / 20 }

/-- `calculateDynamicK`.  The optional arguments mirror the TypeScript
optionals; `tradingVolume24h` is a bigint, so the `if (tradingVolume24h)`
truthiness test also excludes `0n`.  A `Date` object and a `CreatorCoin`
object are always truthy. -/
def calculateDynamicK (p : CurveParams) (coinData : Option CreatorCoin)
    (tradingVolume24h : Option ℤ) (lastTradeTime : Option ℚ) (nowMs : ℚ) : ℚ :=
  let k0 := p.baseK
  let k1 :=
    match tradingVolume24h with
    | some v =>
      if v ≠ 0 then
        let volumeETH := (v : ℚ) / 10 ^ 18
        if volumeETH > 100 then k0 * (12 / 10)
        else if volumeETH < 1 then k0 * (8 / 10)
        else k0
      else k0
    | none => k0
  let k2 :=
    match lastTradeTime with
    | some t =>
      let hoursSinceLastTrade := (nowMs - t) / (1000 * 60 * 60)
      if hoursSinceLastTrade > 24 then
        k1 * p.timeDecayFactor ^ (⌊hoursSinceLastTrade / 24⌋).toNat
      else k1
    | none => k1
  let k3 :=
    match coinData with
    | some cd =>
      if (cd.marketCap : ℚ) / 10 ^ 18 > 1000 then k2 * (11 / 10) else k2
    | none => k2
  max k3 (p.baseK * (1 / 10))

/-- The real-valued price before the final scaling to wei:
`dynamicK * supply^2 / (totalSupply - supply)`, then the creator and volume
multipliers. -/
def calculatePriceRaw (p : CurveParams) (coinData : Option CreatorCoin)
    (tradingVolume24h : Option ℤ) (lastTradeTime : Option ℚ) (nowMs : ℚ)
    (supply : ℤ) : ℚ :=
  let dynamicK := calculateDynamicK p coinData tradingVolume24h lastTradeTime nowMs
  let basePrice := dynamicK * (supply : ℚ) ^ 2 / ((p.totalSupply : ℚ) - (supply : ℚ))
  basePrice * p.creatorMultiplier * p.volumeMultiplier

/-- The scaled integer price: `BigInt(Math.floor(volumePrice * 1e18))`. -/
def priceWei (p : CurveParams) (coinData : Option CreatorCoin)
    (tradingVolume24h : Option ℤ) (lastTradeTime : Option ℚ) (nowMs : ℚ)
    (supply : ℤ) : ℤ :=
  ⌊calculatePriceRaw p coinData tradingVolume24h lastTradeTime nowMs supply * 10 ^ 18⌋

/-- `calculatePrice`: throws when `supply >= this.totalSupply`, otherwise
returns the scaled integer price. -/
def calculatePrice (p : CurveParams) (coinData : Option CreatorCoin)
    (tradingVolume24h : Option ℤ) (lastTradeTime : Option ℚ) (nowMs : ℚ)
    (supply : ℤ) : Except CurveError ℤ :=
  if p.totalSupply ≤ supply then .error .invalidSupply
  else .ok (priceWei p coinData tradingVolume24h lastTradeTime nowMs supply)

/-- Result of a JavaScript floating-point division, which can be a finite
number, an infinity, or NaN (for 0/0). -/
inductive JsNum where
  | fin (val : ℚ)
  | posInf
  | negInf
  | nan
deriving Repr, DecidableEq

/-- JavaScript division `num / den` on floats. -/
def jsDivide (num den : ℚ) : JsNum :=
  if den = 0 then
    if 0 < num then .posInf else if num < 0 then .negInf else .nan
  else .fin (num / den)

/-- JavaScript comparison `x > s` where `x` may be infinite or NaN:
`Infinity > s` is true, `-Infinity > s` and `NaN > s` are false. -/
def JsNum.gtQ : JsNum → ℚ → Bool
  | .fin v, s => decide (s < v)
  | .posInf, _ => true
  | .negInf, _ => false
  | .nan, _ => false

/-- The quote record returned by `calculateTradePrice`. -/
structure TradeQuote where
  inputAmount : ℤ
  outputAmount : ℤ
  priceImpact : JsNum
  minimumReceived : ℤ
  fee : ℤ
  deadline : ℤ
deriving Repr, DecidableEq

/-- `calculateAdjustedMaxSlippage`: tighten by 0.8 for volume over 100 whole
units, loosen by 1.5 for market cap under 10 whole units, cap at 0.1. -/
def calculateAdjustedMaxSlippage (p : CurveParams) (coinData : Option CreatorCoin)
    (tradingVolume24h : Option ℤ) : ℚ :=
  let s0 := p.maxSlippage
  let s1 :=
    match tradingVolume24h with
    | some v => if v ≠ 0 ∧ (v : ℚ) / 10 ^ 18 > 100 then s0 * (8 / 10) else s0
    | none => s0
  let s2 :=
    match coinData with
    | some cd => if (cd.marketCap : ℚ) / 10 ^ 18 < 10 then s1 * (15 / 10) else s1
    | none => s1
  min s2 (1 / 10)

/-- `calculateDynamicFeeRate`: base 1 percent, halved over 1000 units of
volume, times 0.75 over 100, doubled under 1 whole unit of market cap,
floored at 0.5 percent. -/
def calculateDynamicFeeRate (coinData : Option CreatorCoin)
    (tradingVolume24h : Option ℤ) : ℚ :=
  let f0 : ℚ := 1 / 100
  let f1 :=
    match tradingVolume24h with
    | some v =>
      if v ≠ 0 then
        let volumeETH := (v : ℚ) / 10 ^ 18
        if volumeETH > 1000 then f0 * (1 / 2)
        else if volumeETH > 100 then f0 * (75 / 100)
        else f0
      else f0
    | none => f0
  let f2 :=
    match coinData with
    | some cd => if (cd.marketCap : ℚ) / 10 ^ 18 < 1 then f1 * 2 else f1
    | none => f1
  max f2 (1 / 200)

/-- `calculateTradePrice`.  Bounds check, two curve prices, price impact,
slippage gate, output amount, dynamic fee, and deadline. -/
def calculateTradePrice (p : CurveParams) (currentSupply tradeAmount : ℤ)
    (isBuy : Bool) (coinData : Option CreatorCoin) (tradingVolume24h : Option ℤ)
    (lastTradeTime : Option ℚ) (nowMs : ℚ) (randomDelay : ℤ) :
    Except CurveError TradeQuote :=
  let newSupply := if isBuy then currentSupply + tradeAmount else currentSupply - tradeAmount
  if newSupply < 0 ∨ p.totalSupply < newSupply then .error .invalidTrade
  else
    match calculatePrice p coinData tradingVolume24h lastTradeTime nowMs currentSupply with
    | .error e => .error e
    | .ok currentPrice =>
      match calculatePrice p coinData tradingVolume24h lastTradeTime nowMs newSupply with
      | .error e => .error e
      | .ok newPrice =>
        let priceImpact :=
          if isBuy then jsDivide ((newPrice : ℚ) - (currentPrice : ℚ)) (currentPrice : ℚ)
          else jsDivide ((currentPrice : ℚ) - (newPrice : ℚ)) (currentPrice : ℚ)
        let adjustedMaxSlippage := calculateAdjustedMaxSlippage p coinData tradingVolume24h
        if priceImpact.gtQ adjustedMaxSlippage then .error .slippageExceeded
        else
          let outputAmount := Int.tdiv (tradeAmount * currentPrice) (10 ^ 18)
          let feeRate := calculateDynamicFeeRate coinData tradingVolume24h
          let fee := Int.tdiv (outputAmount * ⌊feeRate * 10000⌋) 10000
          .ok { inputAmount := tradeAmount
                outputAmount := outputAmount
                priceImpact := priceImpact
                minimumReceived := outputAmount - fee
                fee := fee
                deadline := ⌊nowMs / 1000⌋ + 1800 + randomDelay }

/-- Helper for the binary-search midpoint: truncated division agrees with
the bounds `low ≤ mid ≤ high`. -/
lemma tdiv_two_mid {low high : ℤ} (h : low ≤ high) :
    low ≤ (low + high).tdiv 2 ∧ (low + high).tdiv 2 ≤ high := by
  rcases le_or_lt 0 (low + high) with hn | hn
  · rw [Int.tdiv_eq_ediv hn (by norm_num)]
    omega
  · have hrw : (low + high).tdiv 2 = -((-(low + high)).tdiv 2) := by
      rw [Int.neg_tdiv]
      ring
    rw [hrw, Int.tdiv_eq_ediv (by omega) (by norm_num)]
    omega

/-- The `while (low <= high)` binary-search loop of
`calculateOptimalTradeSize`, with the loop state as arguments.  The loop
body evaluates `calculatePrice(supply + mid)`, which throws when
`supply + mid` reaches the supply cap. -/
def optLoop (p : CurveParams) (coinData : Option CreatorCoin)
    (tradingVolume24h : Option ℤ) (lastTradeTime : Option ℚ) (nowMs : ℚ)
    (supply maxPrice low high optimalSize : ℤ) : Except CurveError ℤ :=
  if h : low ≤ high then
    let mid := (low + high).tdiv 2
    match calculatePrice p coinData tradingVolume24h lastTradeTime nowMs (supply + mid) with
    | .error e => .error e
    | .ok newPrice =>
      if newPrice ≤ maxPrice then
        optLoop p coinData tradingVolume24h lastTradeTime nowMs supply maxPrice (mid + 1) high mid
      else
        optLoop p coinData tradingVolume24h lastTradeTime nowMs supply maxPrice low (mid - 1) optimalSize
  else .ok optimalSize
termination_by (high + 1 - low).toNat
decreasing_by
  · have hm := tdiv_two_mid h
    omega
  · have hm := tdiv_two_mid h
    omega

/-- `calculateOptimalTradeSize`: binary search over `[0, totalSupply - supply]`
for the largest trade size whose resulting price stays at or below
`currentPrice * BigInt(Math.floor((1 + maxPriceImpact) * 1e18)) / BigInt(1e18)`. -/
def calculateOptimalTradeSize (p : CurveParams) (supply : ℤ) (maxPriceImpact : ℚ)
    (coinData : Option CreatorCoin) (tradingVolume24h : Option ℤ)
    (lastTradeTime : Option ℚ) (nowMs : ℚ) : Except CurveError ℤ :=
  match calculatePrice p coinData tradingVolume24h lastTradeTime nowMs supply with
  | .error e => .error e
  | .ok currentPrice =>
    let maxPrice := Int.tdiv (currentPrice * ⌊(1 + maxPriceImpact) * 10 ^ 18⌋) (10 ^ 18)
    optLoop p coinData tradingVolume24h lastTradeTime nowMs supply maxPrice 0 (p.totalSupply - supply) 0

/-- `calculateLiquidityScore` from `AdvancedBondingCurveCalculator`:
volume, market cap, recency and price-stability components, capped at 100. -/
def calculateLiquidityScore (coinData : Option CreatorCoin)
    (tradingVolume24h : Option ℤ) (lastTradeTime : Option ℚ) (nowMs : ℚ) : ℚ :=
  let s0 : ℚ := 0
  let s1 :=
    match tradingVolume24h with
    | some v => if v ≠ 0 then s0 + min ((v : ℚ) / 10 ^ 18 / 10) 40 else s0
    | none => s0
  let s2 :=
    match coinData with
    | some cd => s1 + min ((cd.marketCap : ℚ) / 10 ^ 18 / 100) 30
    | none => s1
  let s3 :=
    match lastTradeTime with
    | some t =>
      let hoursSinceLastTrade := (nowMs - t) / (1000 * 60 * 60)
      if hoursSinceLastTrade < 1 then s2 + 20
      else if hoursSinceLastTrade < 24 then s2 + 15
      else if hoursSinceLastTrade < 168 then s2 + 10
      else s2 + 5
    | none => s2
  let s4 :=
    match coinData with
    | some cd =>
      let priceChange := |cd.priceChange24h|
      if priceChange < 5 / 100 then s3 + 10
      else if priceChange < 10 / 100 then s3 + 7
      else if priceChange < 20 / 100 then s3 + 4
      else s3 + 1
    | none => s3
  min s4 100

/-- The liquidity score as the specification words it: volume up to 40 points
(whole-coin-unit volume divided by 10, capped), market cap up to 30 points
(whole units divided by 100, capped), recency tiers 20/15/10/5, and price
stability tiered by the absolute 24h change read in percent
(below 5 percent gives 10, below 10 percent gives 7, below 20 percent gives 4,
else 1), summed and capped at 100. -/
def liquidityScoreSpecClaim (coinData : Option CreatorCoin)
    (tradingVolume24h : Option ℤ) (lastTradeTime : Option ℚ) (nowMs : ℚ) : ℚ :=
  let volumePoints :=
    match tradingVolume24h with
    | some v => min ((v : ℚ) / 10 ^ 18 / 10) 40
    | none => 0
  let marketCapPoints :=
    match coinData with
    | some cd => min ((cd.marketCap : ℚ) / 10 ^ 18 / 100) 30
    | none => 0
  let recencyPoints :=
    match lastTradeTime with
    | some t =>
      let hoursSinceLastTrade := (nowMs - t) / (1000 * 60 * 60)
      if hoursSinceLastTrade < 1 then (20 : ℚ)
      else if hoursSinceLastTrade < 24 then 15
      else if hoursSinceLastTrade < 168 then 10
      else 5
    | none => 0
  let stabilityPoints :=
    match coinData with
    | some cd =>
      if |cd.priceChange24h| < 5 then (10 : ℚ)
      else if |cd.priceChange24h| < 10 then 7
      else if |cd.priceChange24h| < 20 then 4
      else 1
    | none => 0
  min (volumePoints + marketCapPoints + recencyPoints + stabilityPoints) 100

/-- The liquidity score with the stability tiers as the code actually
compares them: the raw `priceChange24h` value against 0.05, 0.1 and 0.2. -/
def liquidityScoreSpecAmended (coinData : Option CreatorCoin)
    (tradingVolume24h : Option ℤ) (lastTradeTime : Option ℚ) (nowMs : ℚ) : ℚ :=
  let volumePoints :=
    match tradingVolume24h with
    | some v => min ((v : ℚ) / 10 ^ 18 / 10) 40
    | none => 0
  let marketCapPoints :=
    match coinData with
    | some cd => min ((cd.marketCap : ℚ) / 10 ^ 18 / 100) 30
    | none => 0
  let recencyPoints :=
    match lastTradeTime with
    | some t =>
      let hoursSinceLastTrade := (nowMs - t) / (1000 * 60 * 60)
      if hoursSinceLastTrade < 1 then (20 : ℚ)
      else if hoursSinceLastTrade < 24 then 15
      else if hoursSinceLastTrade < 168 then 10
      else 5
    | none => 0
  let stabilityPoints :=
    match coinData with
    | some cd =>
      if |cd.priceChange24h| < 5 / 100 then (10 : ℚ)
      else if |cd.priceChange24h| < 10 / 100 then 7
      else if |cd.priceChange24h| < 20 / 100 then 4
      else 1
    | none => 0
  min (volumePoints + marketCapPoints + recencyPoints + stabilityPoints) 100

/-- Risk levels of `PricingEngine.assessRisk`. -/
inductive RiskLevel where
  | low
  | medium
  | high
deriving Repr, DecidableEq

/-- Numeric rank of a risk level, for stating monotonicity. -/
def RiskLevel.rank : RiskLevel → ℕ
  | .low => 0
  | .medium => 1
  | .high => 2

/-- First `assessRisk` condition: volatility above 70 forces high, above 40
sets medium. -/
def riskStepVolatility (volatilityScore : ℚ) (l : RiskLevel) : RiskLevel :=
  if volatilityScore > 70 then .high
  else if volatilityScore > 40 then .medium
  else l

/-- Second `assessRisk` condition: liquidity below 30 escalates one level. -/
def riskStepLiquidity (liquidityScore : ℚ) (l : RiskLevel) : RiskLevel :=
  if liquidityScore < 30 then (if l = .low then .medium else .high) else l

/-- Third `assessRisk` condition: absolute 24h price change above 50 forces
high. -/
def riskStepPriceChange (priceChange24h : ℚ) (l : RiskLevel) : RiskLevel :=
  if |priceChange24h| > 50 then .high else l

/-- Fourth `assessRisk` condition: volume below one whole unit escalates one
level. -/
def riskStepVolume (tradingVolume24h : ℤ) (l : RiskLevel) : RiskLevel :=
  if (tradingVolume24h : ℚ) < 10 ^ 18 then (if l = .low then .medium else .high) else l

/-- `PricingEngine.assessRisk`: the four conditions in program order, plus
the accumulated risk-factor strings. -/
def assessRisk (coin : CreatorCoin) (volatilityScore liquidityScore : ℚ) :
    RiskLevel × List String :=
  let l1 := riskStepVolatility volatilityScore .low
  let f1 :=
    if volatilityScore > 70 then [ "High price volatility" ]
    else if volatilityScore > 40 then [ "Moderate price volatility" ]
    else []
  let l2 := riskStepLiquidity liquidityScore l1
  let f2 := f1 ++ (if liquidityScore < 30 then [ "Low liquidity" ] else [])
  let l3 := riskStepPriceChange coin.priceChange24h l2
  let f3 := f2 ++ (if |coin.priceChange24h| > 50 then [ "Extreme price movement" ] else [])
  let l4 := riskStepVolume coin.tradingVolume24h l3
  let f4 := f3 ++ (if (coin.tradingVolume24h : ℚ) < 10 ^ 18 then [ "Low trading volume" ] else [])
  (l4, if f4 = [] then [ "Stable market conditions" ] else f4)

/-- Overall trend of the aggregated market conditions. -/
inductive Trend where
  | bullish
  | bearish
  | neutral
deriving Repr, DecidableEq

/-- The `MarketConditions` record built by
`PricingEngine.updateMarketConditions`. -/
structure MarketConditions where
  overallTrend : Trend
  marketCap : ℤ
  totalVolume : ℤ
  activeTraders : ℕ
  averageTradeSize : ℤ
  priceVolatility : ℚ
deriving Repr, DecidableEq

/-- `PricingEngine.updateMarketConditions` as a pure function of the coin
list.  On an empty list the source divides a bigint by zero, which throws,
so the empty case is `none`. -/
def updateMarketConditions (coins : List CreatorCoin) : Option MarketConditions :=
  if coins.isEmpty then none
  else
    let totalMarketCap := coins.foldl (fun s c => s + c.marketCap) 0
    let totalVolume := coins.foldl (fun s c => s + c.tradingVolume24h) 0
    let averagePriceChange := coins.foldl (fun s c => s + c.priceChange24h) 0 / (coins.length : ℚ)
    some
      { overallTrend :=
          if averagePriceChange > 5 then .bullish
          else if averagePriceChange < -5 then .bearish
          else .neutral
        marketCap := totalMarketCap
        totalVolume := totalVolume
        activeTraders := coins.length
        averageTradeSize := Int.tdiv totalVolume (coins.length : ℤ)
        priceVolatility := |averagePriceChange| }

/-- The dynamic k is positive whenever `baseK` is positive, thanks to the
floor `max(k, baseK * 0.1)`. -/
lemma calculateDynamicK_pos (p : CurveParams) (coinData : Option CreatorCoin)
    (tradingVolume24h : Option ℤ) (lastTradeTime : Option ℚ) (nowMs : ℚ)
    (hb : 0 < p.baseK) :
    0 < calculateDynamicK p coinData tradingVolume24h lastTradeTime nowMs := by
  simp only [calculateDynamicK]
  exact lt_max_of_lt_right (mul_pos hb (by norm_num))

/-- The pre-truncation price is nonnegative on valid supplies. -/
lemma calculatePriceRaw_nonneg (p : CurveParams) (coinData : Option CreatorCoin)
    (tradingVolume24h : Option ℤ) (lastTradeTime : Option ℚ) (nowMs : ℚ)
    {s : ℤ} (hb : 0 < p.baseK) (hc : 0 < p.creatorMultiplier)
    (hv : 0 < p.volumeMultiplier) (hs : s < p.totalSupply) :
    0 ≤ calculatePriceRaw p coinData tradingVolume24h lastTradeTime nowMs s := by
  have hK := calculateDynamicK_pos p coinData tradingVolume24h lastTradeTime nowMs hb
  have hden : (0 : ℚ) < (p.totalSupply : ℚ) - (s : ℚ) := by
    have h1 : (s : ℚ) < (p.totalSupply : ℚ) := by exact_mod_cast hs
    linarith
  simp only [calculatePriceRaw]
  exact mul_nonneg (mul_nonneg (div_nonneg (mul_nonneg hK.le (sq_nonneg _)) hden.le) hc.le) hv.le

/-- Strict monotonicity of the pre-truncation price on `[0, totalSupply)`. -/
lemma calculatePriceRaw_lt (p : CurveParams) (coinData : Option CreatorCoin)
    (tradingVolume24h : Option ℤ) (lastTradeTime : Option ℚ) (nowMs : ℚ)
    {s1 s2 : ℤ} (hb : 0 < p.baseK) (hc : 0 < p.creatorMultiplier)
    (hv : 0 < p.volumeMultiplier) (h0 : 0 ≤ s1) (h12 : s1 < s2)
    (h2 : s2 < p.totalSupply) :
    calculatePriceRaw p coinData tradingVolume24h lastTradeTime nowMs s1 <
      calculatePriceRaw p coinData tradingVolume24h lastTradeTime nowMs s2 := by
  have hK := calculateDynamicK_pos p coinData tradingVolume24h lastTradeTime nowMs hb
  have hq0 : (0 : ℚ) ≤ (s1 : ℚ) := by exact_mod_cast h0
  have hq12 : (s1 : ℚ) < (s2 : ℚ) := by exact_mod_cast h12
  have hq2 : (s2 : ℚ) < (p.totalSupply : ℚ) := by exact_mod_cast h2
  have hnum : (s1 : ℚ) ^ 2 < (s2 : ℚ) ^ 2 := by
    exact pow_lt_pow_left₀ hq12 hq0 (by norm_num)
  have hd2 : (0 : ℚ) < (p.totalSupply : ℚ) - (s2 : ℚ) := by linarith
  have hdle : (p.totalSupply : ℚ) - (s2 : ℚ) ≤ (p.totalSupply : ℚ) - (s1 : ℚ) := by linarith
  have hbase :
      calculateDynamicK p coinData tradingVolume24h lastTradeTime nowMs * (s1 : ℚ) ^ 2 /
          ((p.totalSupply : ℚ) - (s1 : ℚ)) <
        calculateDynamicK p coinData tradingVolume24h lastTradeTime nowMs * (s2 : ℚ) ^ 2 /
          ((p.totalSupply : ℚ) - (s2 : ℚ)) := by
    refine div_lt_div₀ ?_ hdle ?_ hd2
    · exact mul_lt_mul_of_pos_left hnum hK
    · exact mul_nonneg hK.le (sq_nonneg _)
  simp only [calculatePriceRaw]
  exact mul_lt_mul_of_pos_right (mul_lt_mul_of_pos_right hbase hc) hv

/-- The scaled integer price is monotone (weakly, because of the final
truncation) on `[0, totalSupply)`. -/
lemma priceWei_mono (p : CurveParams) (coinData : Option CreatorCoin)
    (tradingVolume24h : Option ℤ) (lastTradeTime : Option ℚ) (nowMs : ℚ)
    {s1 s2 : ℤ} (hb : 0 < p.baseK) (hc : 0 < p.creatorMultiplier)
    (hv : 0 < p.volumeMultiplier) (h0 : 0 ≤ s1) (h12 : s1 ≤ s2)
    (h2 : s2 < p.totalSupply) :
    priceWei p coinData tradingVolume24h lastTradeTime nowMs s1 ≤
      priceWei p coinData tradingVolume24h lastTradeTime nowMs s2 := by
  rcases eq_or_lt_of_le h12 with rfl | hlt
  · exact le_refl _
  · have := calculatePriceRaw_lt p coinData tradingVolume24h lastTradeTime nowMs hb hc hv h0 hlt h2
    exact Int.floor_le_floor (mul_le_mul_of_nonneg_right this.le (by norm_num))

/-- The scaled integer price is nonnegative on valid supplies. -/
lemma priceWei_nonneg (p : CurveParams) (coinData : Option CreatorCoin)
    (tradingVolume24h : Option ℤ) (lastTradeTime : Option ℚ) (nowMs : ℚ)
    {s : ℤ} (hb : 0 < p.baseK) (hc : 0 < p.creatorMultiplier)
    (hv : 0 < p.volumeMultiplier) (hs : s < p.totalSupply) :
    0 ≤ priceWei p coinData tradingVolume24h lastTradeTime nowMs s := by
  have := calculatePriceRaw_nonneg p coinData tradingVolume24h lastTradeTime nowMs hb hc hv hs
  exact Int.floor_nonneg.mpr (mul_nonneg this (by norm_num))

/-- Curve parameters exhibiting the truncation plateau: default baseK with a
very large supply cap. -/
def plateauParams : CurveParams :=
  { baseK := 1 / 10000
    totalSupply := 10 ^ 30
    maxSlippage := 1 / 20
    creatorMultiplier := 1
    volumeMultiplier := 1
    timeDecayFactor := 19 / 20 }

/-- Claim C1 (amended): for fixed parameters with positive `baseK`,
`creatorMultiplier` and `volumeMultiplier`, and fixed dynamic-k inputs,
`calculatePrice` succeeds on `0 ≤ s1 < s2 < totalSupplyCap` and the scaled
integer prices satisfy `price(s1) ≤ price(s2)`, while the pre-truncation
rational price is strictly increasing. -/
theorem c1_price_monotone (p : CurveParams) (coinData : Option CreatorCoin)
    (tradingVolume24h : Option ℤ) (lastTradeTime : Option ℚ) (nowMs : ℚ)
    {s1 s2 : ℤ} (hb : 0 < p.baseK) (hc : 0 < p.creatorMultiplier)
    (hv : 0 < p.volumeMultiplier) (h0 : 0 ≤ s1) (h12 : s1 < s2)
    (h2 : s2 < p.totalSupply) :
    calculatePrice p coinData tradingVolume24h lastTradeTime nowMs s1 =
      .ok (priceWei p coinData tradingVolume24h lastTradeTime nowMs s1) ∧
    calculatePrice p coinData tradingVolume24h lastTradeTime nowMs s2 =
      .ok (priceWei p coinData tradingVolume24h lastTradeTime nowMs s2) ∧
    priceWei p coinData tradingVolume24h lastTradeTime nowMs s1 ≤
      priceWei p coinData tradingVolume24h lastTradeTime nowMs s2 ∧
    calculatePriceRaw p coinData tradingVolume24h lastTradeTime nowMs s1 <
      calculatePriceRaw p coinData tradingVolume24h lastTradeTime nowMs s2 := by
  have h1 : s1 < p.totalSupply := lt_trans h12 h2
  refine ⟨?_, ?_, ?_, ?_⟩
  · simp [calculatePrice, not_le.mpr h1]
  · simp [calculatePrice, not_le.mpr h2]
  · exact priceWei_mono p coinData tradingVolume24h lastTradeTime nowMs hb hc hv h0 h12.le h2
  · exact calculatePriceRaw_lt p coinData tradingVolume24h lastTradeTime nowMs hb hc hv h0 h12 h2

/-- Witness for C1 at the spec's concrete scenario: default parameters,
`s1 = 100_000_000`, `s2 = 500_000_000`. -/
theorem c1_price_monotone_witness :
    0 < defaultParams.baseK ∧ 0 < defaultParams.creatorMultiplier ∧
    0 < defaultParams.volumeMultiplier ∧ (0 : ℤ) ≤ 10 ^ 8 ∧
    (10 ^ 8 : ℤ) < 5 * 10 ^ 8 ∧ (5 * 10 ^ 8 : ℤ) < defaultParams.totalSupply ∧
    (calculatePrice defaultParams none none none 0 (10 ^ 8) =
        .ok (priceWei defaultParams none none none 0 (10 ^ 8)) ∧
      calculatePrice defaultParams none none none 0 (5 * 10 ^ 8) =
        .ok (priceWei defaultParams none none none 0 (5 * 10 ^ 8)) ∧
      priceWei defaultParams none none none 0 (10 ^ 8) ≤
        priceWei defaultParams none none none 0 (5 * 10 ^ 8) ∧
      calculatePriceRaw defaultParams none none none 0 (10 ^ 8) <
        calculatePriceRaw defaultParams none none none 0 (5 * 10 ^ 8)) :=
  ⟨by norm_num [defaultParams], by norm_num [defaultParams], by norm_num [defaultParams],
   by norm_num, by norm_num, by norm_num [defaultParams],
   c1_price_monotone defaultParams none none none 0
     (by norm_num [defaultParams]) (by norm_num [defaultParams])
     (by norm_num [defaultParams]) (by norm_num) (by norm_num)
     (by norm_num [defaultParams])⟩

/-- Counterexample to C1 as stated: with `baseK = 0.0001` and a supply cap of
`10^30`, the supplies 0 and 1 are both in range but the scaled integer prices
are both 0, so the price is not strictly increasing. -/
theorem c1_strict_counterexample :
    (0 : ℤ) < 1 ∧ (1 : ℤ) < plateauParams.totalSupply ∧
    calculatePrice plateauParams none none none 0 0 = .ok 0 ∧
    calculatePrice plateauParams none none none 0 1 = .ok 0 ∧
    ¬ priceWei plateauParams none none none 0 0 < priceWei plateauParams none none none 0 1 := by
  have hmax : max ((1 : ℚ) / 10000) (1 / 10000 * (1 / 10)) = 1 / 10000 :=
    max_eq_left (by norm_num)
  have h0 : priceWei plateauParams none none none 0 0 = 0 := by
    norm_num [priceWei, calculatePriceRaw, calculateDynamicK, plateauParams]
  have h1 : priceWei plateauParams none none none 0 1 = 0 := by
    norm_num [priceWei, calculatePriceRaw, calculateDynamicK, plateauParams, hmax,
      Int.floor_eq_iff]
  refine ⟨by norm_num, by norm_num [plateauParams], ?_, ?_, ?_⟩
  · rw [calculatePrice, if_neg (by norm_num [plateauParams]), h0]
  · rw [calculatePrice, if_neg (by norm_num [plateauParams]), h1]
  · rw [h0, h1]
    exact lt_irrefl 0

/-- Claim C2: for any combination of optional coin data, 24h volume and
last-trade time, and any parameters, the dynamic k is never below
`baseK * 0.1`. -/
theorem c2_dynamicK_floor (p : CurveParams) (coinData : Option CreatorCoin)
    (tradingVolume24h : Option ℤ) (lastTradeTime : Option ℚ) (nowMs : ℚ) :
    p.baseK * (1 / 10) ≤ calculateDynamicK p coinData tradingVolume24h lastTradeTime nowMs := by
  simp only [calculateDynamicK]
  exact le_max_right _ _

/-- Claim C5: `calculatePrice` fails with the invalid-supply error exactly on
`supply ≥ totalSupplyCap`, and returns the scaled price below the cap. -/
theorem c5_supply_boundary (p : CurveParams) (coinData : Option CreatorCoin)
    (tradingVolume24h : Option ℤ) (lastTradeTime : Option ℚ) (nowMs : ℚ)
    (supply : ℤ) :
    (p.totalSupply ≤ supply →
      calculatePrice p coinData tradingVolume24h lastTradeTime nowMs supply =
        .error .invalidSupply) ∧
    (supply < p.totalSupply →
      calculatePrice p coinData tradingVolume24h lastTradeTime nowMs supply =
        .ok (priceWei p coinData tradingVolume24h lastTradeTime nowMs supply)) := by
  constructor
  · intro h
    simp [calculatePrice, h]
  · intro h
    simp [calculatePrice, not_le.mpr h]

/-- Witness for C5: with default parameters the price call fails at the cap
`10^9` and succeeds at supply 5. -/
theorem c5_supply_boundary_witness :
    calculatePrice defaultParams none none none 0 (10 ^ 9) = .error .invalidSupply ∧
    calculatePrice defaultParams none none none 0 5 =
      .ok (priceWei defaultParams none none none 0 5) :=
  ⟨(c5_supply_boundary defaultParams none none none 0 (10 ^ 9)).1
      (by norm_num [defaultParams]),
   (c5_supply_boundary defaultParams none none none 0 5).2
      (by norm_num [defaultParams])⟩

/-- Claim C9: aggregating a single coin gives back its market cap, and the
average trade size is exactly its 24h volume (integer division by 1). -/
theorem c9_aggregate_singleton (c : CreatorCoin) :
    (updateMarketConditions [ c ]).map (fun m => (m.marketCap, m.averageTradeSize)) =
      some (c.marketCap, c.tradingVolume24h) := by
  simp [updateMarketConditions, Int.tdiv_one]

/-- Each escalation step of `assessRisk` never lowers the risk rank. -/
lemma riskStepLiquidity_rank (q : ℚ) (l : RiskLevel) :
    l.rank ≤ (riskStepLiquidity q l).rank := by
  unfold riskStepLiquidity
  split
  · cases l <;> simp [RiskLevel.rank]
  · exact le_refl _

/-- The price-change step of `assessRisk` never lowers the risk rank. -/
lemma riskStepPriceChange_rank (q : ℚ) (l : RiskLevel) :
    l.rank ≤ (riskStepPriceChange q l).rank := by
  unfold riskStepPriceChange
  split
  · cases l <;> simp [RiskLevel.rank]
  · exact le_refl _

/-- The volume step of `assessRisk` never lowers the risk rank. -/
lemma riskStepVolume_rank (v : ℤ) (l : RiskLevel) :
    l.rank ≤ (riskStepVolume v l).rank := by
  unfold riskStepVolume
  split
  · cases l <;> simp [RiskLevel.rank]
  · exact le_refl _

/-- Once high, the liquidity step stays high. -/
lemma riskStepLiquidity_high (q : ℚ) :
    riskStepLiquidity q .high = .high := by
  simp [riskStepLiquidity]

/-- Once high, the price-change step stays high. -/
lemma riskStepPriceChange_high (q : ℚ) :
    riskStepPriceChange q .high = .high := by
  simp [riskStepPriceChange]

/-- Once high, the volume step stays high. -/
lemma riskStepVolume_high (v : ℤ) :
    riskStepVolume v .high = .high := by
  simp [riskStepVolume]

/-- Claim C8: within one `assessRisk` call the risk level only escalates
through the four conditions in program order, and once a condition forces
"high" (volatility above 70, or absolute 24h change above 50) the returned
level is "high". -/
theorem c8_risk_monotone (coin : CreatorCoin) (volatilityScore liquidityScore : ℚ) :
    ((riskStepVolatility volatilityScore .low).rank ≤
        (riskStepLiquidity liquidityScore (riskStepVolatility volatilityScore .low)).rank ∧
      (riskStepLiquidity liquidityScore (riskStepVolatility volatilityScore .low)).rank ≤
        (riskStepPriceChange coin.priceChange24h
          (riskStepLiquidity liquidityScore (riskStepVolatility volatilityScore .low))).rank ∧
      (riskStepPriceChange coin.priceChange24h
          (riskStepLiquidity liquidityScore (riskStepVolatility volatilityScore .low))).rank ≤
        (assessRisk coin volatilityScore liquidityScore).1.rank) ∧
    (70 < volatilityScore → (assessRisk coin volatilityScore liquidityScore).1 = .high) ∧
    (50 < |coin.priceChange24h| → (assessRisk coin volatilityScore liquidityScore).1 = .high) := by
  have hfst : (assessRisk coin volatilityScore liquidityScore).1 =
      riskStepVolume coin.tradingVolume24h
        (riskStepPriceChange coin.priceChange24h
          (riskStepLiquidity liquidityScore
            (riskStepVolatility volatilityScore .low))) := rfl
  refine ⟨⟨riskStepLiquidity_rank _ _, riskStepPriceChange_rank _ _, ?_⟩, ?_, ?_⟩
  · rw [hfst]
    exact riskStepVolume_rank _ _
  · intro h
    have h1 : riskStepVolatility volatilityScore .low = .high := by
      simp [riskStepVolatility, h]
    rw [hfst, h1, riskStepLiquidity_high, riskStepPriceChange_high, riskStepVolume_high]
  · intro h
    have h3 : riskStepPriceChange coin.priceChange24h
        (riskStepLiquidity liquidityScore (riskStepVolatility volatilityScore .low)) = .high := by
      simp [riskStepPriceChange, h]
    rw [hfst, h3, riskStepVolume_high]

/-- Witness for C8 at a coin with 24h change +60, volatility 80 and
liquidity 50: the returned level is high. -/
theorem c8_risk_monotone_witness :
    (70 : ℚ) < 80 ∧ (50 : ℚ) < |(CreatorCoin.mk 0 0 60).priceChange24h| ∧
    (assessRisk (CreatorCoin.mk 0 0 60) 80 50).1 = .high ∧
    (assessRisk (CreatorCoin.mk 0 0 60) 80 50).1 = .high :=
  ⟨by norm_num, by norm_num,
   (c8_risk_monotone (CreatorCoin.mk 0 0 60) 80 50).2.1 (by norm_num),
   (c8_risk_monotone (CreatorCoin.mk 0 0 60) 80 50).2.2 (by norm_num)⟩

/-- The bigint truthiness guard on the volume component is invisible in the
score: a zero volume contributes zero points either way. -/
lemma volumePoints_eq (v : ℤ) :
    (if v ≠ 0 then min ((v : ℚ) / 10 ^ 18 / 10) 40 else 0) =
      min ((v : ℚ) / 10 ^ 18 / 10) 40 := by
  rcases eq_or_ne v 0 with rfl | hv
  · norm_num [min_def]
  · simp [hv]

set_option maxHeartbeats 2000000 in
/-- Claim C7 (amended): the calculator's liquidity score equals the weighted
sum of the four components, with the price-stability tiers taken on the raw
`priceChange24h` value against 0.05, 0.1 and 0.2 rather than against 5, 10
and 20 percent. -/
theorem c7_liquidity_score (coinData : Option CreatorCoin)
    (tradingVolume24h : Option ℤ) (lastTradeTime : Option ℚ) (nowMs : ℚ) :
    calculateLiquidityScore coinData tradingVolume24h lastTradeTime nowMs =
      liquidityScoreSpecAmended coinData tradingVolume24h lastTradeTime nowMs := by
  rcases coinData with _ | cd <;> rcases tradingVolume24h with _ | v <;>
    rcases lastTradeTime with _ | t <;>
    simp only [calculateLiquidityScore, liquidityScoreSpecAmended, volumePoints_eq,
      zero_add] <;>
    (try split_ifs) <;> (congr 1 <;> ring)

/-- The snapshot refuting the percent reading of the stability tiers:
market cap 1000 whole units, 24h change +3 (three percent), volume 100 whole
units, last trade now. -/
def c7coin : CreatorCoin :=
  { marketCap := 1000 * 10 ^ 18
    tradingVolume24h := 0
    priceChange24h := 3 }

/-- Counterexample to C7 as stated: at `c7coin` the spec's percent-tiered
formula gives 50 (stability tier below five percent scores 10), while the
code scores 41 (its 0.2 threshold hands the 3-percent coin a single point). -/
theorem c7_liquidity_counterexample :
    liquidityScoreSpecClaim (some c7coin) (some (100 * 10 ^ 18)) (some 0) 0 = 50 ∧
    calculateLiquidityScore (some c7coin) (some (100 * 10 ^ 18)) (some 0) 0 = 41 ∧
    calculateLiquidityScore (some c7coin) (some (100 * 10 ^ 18)) (some 0) 0 ≠
      liquidityScoreSpecClaim (some c7coin) (some (100 * 10 ^ 18)) (some 0) 0 := by
  refine ⟨?_, ?_, ?_⟩
  · norm_num [liquidityScoreSpecClaim, c7coin, min_def]
  · norm_num [calculateLiquidityScore, c7coin, min_def]
  · norm_num [calculateLiquidityScore, liquidityScoreSpecClaim, c7coin, min_def]

/-- The volume tightening of the slippage bound, factored out: the bigint
truthiness guard is redundant because zero volume never exceeds 100 units. -/
lemma slipVolFactor_eq (s : ℚ) (v : ℤ) :
    (if v ≠ 0 ∧ (v : ℚ) / 10 ^ 18 > 100 then s * (8 / 10) else s) =
      s * (if 100 < (v : ℚ) / 10 ^ 18 then (8 : ℚ) / 10 else 1) := by
  rcases eq_or_ne v 0 with rfl | hv
  · norm_num
  · by_cases hx : 100 < (v : ℚ) / 10 ^ 18
    · rw [if_pos ⟨hv, hx⟩, if_pos hx]
    · rw [if_neg (by tauto), if_neg hx, mul_one]

/-- The adjusted max slippage in closed form: `maxSlippage`, times 0.8 when
24h volume exceeds 100 whole units, times 1.5 when market cap is below 10
whole units, capped at 0.10. -/
lemma adjustedMaxSlippage_formula (p : CurveParams) (coinData : Option CreatorCoin)
    (tradingVolume24h : Option ℤ) :
    calculateAdjustedMaxSlippage p coinData tradingVolume24h =
      min (p.maxSlippage *
        (match tradingVolume24h with
          | some v => if 100 < (v : ℚ) / 10 ^ 18 then (8 : ℚ) / 10 else 1
          | none => 1) *
        (match coinData with
          | some cd => if (cd.marketCap : ℚ) / 10 ^ 18 < 10 then (15 : ℚ) / 10 else 1
          | none => 1)) (1 / 10) := by
  rcases coinData with _ | cd <;> rcases tradingVolume24h with _ | v <;>
    simp only [calculateAdjustedMaxSlippage, slipVolFactor_eq] <;>
    (try split_ifs) <;> (congr 1 <;> ring)

/-- The price impact `calculateTradePrice` computes once both curve prices
are available: the signed relative change of the scaled prices, as a
JavaScript float division. -/
def tradeImpact (p : CurveParams) (coinData : Option CreatorCoin)
    (tradingVolume24h : Option ℤ) (lastTradeTime : Option ℚ) (nowMs : ℚ)
    (currentSupply tradeAmount : ℤ) (isBuy : Bool) : JsNum :=
  let newSupply := if isBuy then currentSupply + tradeAmount else currentSupply - tradeAmount
  if isBuy then
    jsDivide ((priceWei p coinData tradingVolume24h lastTradeTime nowMs newSupply : ℚ) -
        (priceWei p coinData tradingVolume24h lastTradeTime nowMs currentSupply : ℚ))
      (priceWei p coinData tradingVolume24h lastTradeTime nowMs currentSupply : ℚ)
  else
    jsDivide ((priceWei p coinData tradingVolume24h lastTradeTime nowMs currentSupply : ℚ) -
        (priceWei p coinData tradingVolume24h lastTradeTime nowMs newSupply : ℚ))
      (priceWei p coinData tradingVolume24h lastTradeTime nowMs currentSupply : ℚ)

/-- Claim C3: on a quote whose supplies are in range, `calculateTradePrice`
fails with the slippage error exactly when the computed impact exceeds the
adjusted max slippage, and that bound is `maxSlippage`, tightened by 0.8 over
100 whole units of volume, loosened by 1.5 under 10 whole units of market
cap, capped at 0.10. -/
theorem c3_slippage_gate (p : CurveParams) (currentSupply tradeAmount : ℤ)
    (isBuy : Bool) (coinData : Option CreatorCoin) (tradingVolume24h : Option ℤ)
    (lastTradeTime : Option ℚ) (nowMs : ℚ) (randomDelay : ℤ)
    (hcs : currentSupply < p.totalSupply)
    (hns0 : 0 ≤ (if isBuy then currentSupply + tradeAmount else currentSupply - tradeAmount))
    (hns : (if isBuy then currentSupply + tradeAmount else currentSupply - tradeAmount) < p.totalSupply) :
    (calculateTradePrice p currentSupply tradeAmount isBuy coinData tradingVolume24h
        lastTradeTime nowMs randomDelay = .error .slippageExceeded ↔
      JsNum.gtQ
        (tradeImpact p coinData tradingVolume24h lastTradeTime nowMs currentSupply
          tradeAmount isBuy)
        (calculateAdjustedMaxSlippage p coinData tradingVolume24h) = true) ∧
    calculateAdjustedMaxSlippage p coinData tradingVolume24h =
      min (p.maxSlippage *
        (match tradingVolume24h with
          | some v => if 100 < (v : ℚ) / 10 ^ 18 then (8 : ℚ) / 10 else 1
          | none => 1) *
        (match coinData with
          | some cd => if (cd.marketCap : ℚ) / 10 ^ 18 < 10 then (15 : ℚ) / 10 else 1
          | none => 1)) (1 / 10) := by
  refine ⟨?_, adjustedMaxSlippage_formula p coinData tradingVolume24h⟩
  have hcur : calculatePrice p coinData tradingVolume24h lastTradeTime nowMs currentSupply =
      .ok (priceWei p coinData tradingVolume24h lastTradeTime nowMs currentSupply) := by
    rw [calculatePrice, if_neg (not_le.mpr hcs)]
  have hnew : calculatePrice p coinData tradingVolume24h lastTradeTime nowMs
        (if isBuy then currentSupply + tradeAmount else currentSupply - tradeAmount) =
      .ok (priceWei p coinData tradingVolume24h lastTradeTime nowMs
        (if isBuy then currentSupply + tradeAmount else currentSupply - tradeAmount)) := by
    rw [calculatePrice, if_neg (not_le.mpr hns)]
  simp only [calculateTradePrice, hcur, hnew]
  rw [if_neg (by push_neg; exact ⟨hns0, hns.le⟩)]
  by_cases hgt : JsNum.gtQ
      (tradeImpact p coinData tradingVolume24h lastTradeTime nowMs currentSupply
        tradeAmount isBuy)
      (calculateAdjustedMaxSlippage p coinData tradingVolume24h) = true
  · have hgt' := hgt
    simp only [tradeImpact] at hgt'
    simp [hgt, hgt']
  · have hgt' := hgt
    simp only [tradeImpact] at hgt'
    simp [hgt, hgt']

/-- Witness for C3: a buy of 1000 at supply one million under default
parameters is in range, so the slippage gate is exactly the impact
comparison. -/
theorem c3_slippage_gate_witness :
    (calculateTradePrice defaultParams (10 ^ 6) 1000 true none none none 0 0 =
        .error .slippageExceeded ↔
      JsNum.gtQ (tradeImpact defaultParams none none none 0 (10 ^ 6) 1000 true)
        (calculateAdjustedMaxSlippage defaultParams none none) = true) ∧
    calculateAdjustedMaxSlippage defaultParams none none =
      min (defaultParams.maxSlippage * 1 * 1) (1 / 10) :=
  c3_slippage_gate defaultParams (10 ^ 6) 1000 true none none none 0 0
    (by norm_num [defaultParams]) (by norm_num) (by norm_num [defaultParams])

/-- Claim C6: the spec asks this buy quote at supply 0 to succeed with a
strictly positive price impact, but the current price at supply 0 is 0, the
impact division is `newPrice / 0 = Infinity`, and `Infinity > adjustedMax`
throws the slippage error.  This theorem records what the code does at that
input. -/
theorem c6_zero_supply_quote_throws :
    calculateTradePrice defaultParams 0 1000 true none none none 0 0 =
      .error .slippageExceeded := by
  have hmax : max ((1 : ℚ) / 10000) (1 / 10000 * (1 / 10)) = 1 / 10000 :=
    max_eq_left (by norm_num)
  have h0 : priceWei defaultParams none none none 0 0 = 0 := by
    norm_num [priceWei, calculatePriceRaw, calculateDynamicK, defaultParams]
  have h1 : (1 : ℤ) ≤ priceWei defaultParams none none none 0 (0 + 1000) := by
    rw [priceWei]
    refine Int.le_floor.mpr ?_
    norm_num [calculatePriceRaw, calculateDynamicK, defaultParams, hmax]
  have hpos : (0 : ℚ) <
      ((priceWei defaultParams none none none 0 (0 + 1000) : ℤ) : ℚ) := by
    exact_mod_cast lt_of_lt_of_le zero_lt_one h1
  have hcur : calculatePrice defaultParams none none none 0 0 = .ok 0 := by
    rw [calculatePrice, if_neg (by norm_num [defaultParams]), h0]
  have hnew : calculatePrice defaultParams none none none 0 (0 + 1000) =
      .ok (priceWei defaultParams none none none 0 (0 + 1000)) := by
    rw [calculatePrice, if_neg (by norm_num [defaultParams])]
  simp only [calculateTradePrice, if_true]
  rw [if_neg (by norm_num [defaultParams])]
  simp only [hcur, hnew, Int.cast_zero, sub_zero, jsDivide, if_pos rfl, if_pos hpos,
    JsNum.gtQ, if_true]

/-- The dynamic fee rate never goes below half a percent. -/
lemma feeRate_lower (coinData : Option CreatorCoin) (tradingVolume24h : Option ℤ) :
    1 / 200 ≤ calculateDynamicFeeRate coinData tradingVolume24h := by
  simp only [calculateDynamicFeeRate]
  exact le_max_right _ _

/-- The dynamic fee rate never goes above two percent. -/
lemma feeRate_upper (coinData : Option CreatorCoin) (tradingVolume24h : Option ℤ) :
    calculateDynamicFeeRate coinData tradingVolume24h ≤ 1 / 50 := by
  rcases coinData with _ | cd <;> rcases tradingVolume24h with _ | v <;>
    simp only [calculateDynamicFeeRate] <;>
    refine max_le ?_ (by norm_num) <;>
    (try split_ifs) <;> norm_num

/-- Claim C10: on every quote `calculateTradePrice` actually returns (with
positive parameters and nonnegative supply and amount), the dynamic fee rate
lies in `[0.005, 0.02]`, the fee never exceeds the output amount, and the
minimum received is nonnegative. -/
theorem c10_fee_invariants (p : CurveParams) (currentSupply tradeAmount : ℤ)
    (isBuy : Bool) (coinData : Option CreatorCoin) (tradingVolume24h : Option ℤ)
    (lastTradeTime : Option ℚ) (nowMs : ℚ) (randomDelay : ℤ) (q : TradeQuote)
    (hb : 0 < p.baseK) (hc : 0 < p.creatorMultiplier) (hv : 0 < p.volumeMultiplier)
    (ha : 0 ≤ tradeAmount)
    (hok : calculateTradePrice p currentSupply tradeAmount isBuy coinData
        tradingVolume24h lastTradeTime nowMs randomDelay = .ok q) :
    (1 / 200 ≤ calculateDynamicFeeRate coinData tradingVolume24h ∧
      calculateDynamicFeeRate coinData tradingVolume24h ≤ 1 / 50) ∧
    q.fee ≤ q.outputAmount ∧ 0 ≤ q.minimumReceived := by
  refine ⟨⟨feeRate_lower coinData tradingVolume24h, feeRate_upper coinData tradingVolume24h⟩, ?_⟩
  have hbounds : ¬((if isBuy then currentSupply + tradeAmount else currentSupply - tradeAmount) < 0 ∨
      p.totalSupply < (if isBuy then currentSupply + tradeAmount else currentSupply - tradeAmount)) := by
    intro hcon
    simp only [calculateTradePrice, if_pos hcon] at hok
    exact absurd hok (by simp)
  have hcsT : currentSupply < p.totalSupply := by
    by_contra hge
    push_neg at hge
    simp only [calculateTradePrice, if_neg hbounds, calculatePrice, if_pos hge] at hok
    exact absurd hok (by simp)
  have hnsT : (if isBuy then currentSupply + tradeAmount else currentSupply - tradeAmount) <
      p.totalSupply := by
    by_contra hge
    push_neg at hge
    simp only [calculateTradePrice, if_neg hbounds, calculatePrice,
      if_neg (not_le.mpr hcsT), if_pos hge] at hok
    exact absurd hok (by simp)
  have hPn : 0 ≤ priceWei p coinData tradingVolume24h lastTradeTime nowMs currentSupply :=
    priceWei_nonneg p coinData tradingVolume24h lastTradeTime nowMs hb hc hv hcsT
  have hout : 0 ≤ Int.tdiv
      (tradeAmount * priceWei p coinData tradingVolume24h lastTradeTime nowMs currentSupply)
      (10 ^ 18) :=
    Int.tdiv_nonneg (mul_nonneg ha hPn) (by norm_num)
  have hb200 : ⌊calculateDynamicFeeRate coinData tradingVolume24h * 10000⌋ ≤ (200 : ℤ) := by
    have h200 : calculateDynamicFeeRate coinData tradingVolume24h * 10000 ≤ ((200 : ℤ) : ℚ) := by
      push_cast
      nlinarith [feeRate_upper coinData tradingVolume24h]
    have h2f := Int.floor_le_floor h200
    rwa [Int.floor_intCast] at h2f
  have hbn : (0 : ℤ) ≤ ⌊calculateDynamicFeeRate coinData tradingVolume24h * 10000⌋ := by
    refine Int.le_floor.mpr ?_
    push_cast
    nlinarith [feeRate_lower coinData tradingVolume24h]
  have hfee_le : Int.tdiv
      (Int.tdiv (tradeAmount * priceWei p coinData tradingVolume24h lastTradeTime nowMs currentSupply) (10 ^ 18) *
        ⌊calculateDynamicFeeRate coinData tradingVolume24h * 10000⌋) 10000 ≤
      Int.tdiv (tradeAmount * priceWei p coinData tradingVolume24h lastTradeTime nowMs currentSupply) (10 ^ 18) := by
    rw [Int.tdiv_eq_ediv (mul_nonneg hout hbn) (by norm_num)]
    calc Int.tdiv (tradeAmount * priceWei p coinData tradingVolume24h lastTradeTime nowMs currentSupply) (10 ^ 18) *
          ⌊calculateDynamicFeeRate coinData tradingVolume24h * 10000⌋ / 10000 ≤
        Int.tdiv (tradeAmount * priceWei p coinData tradingVolume24h lastTradeTime nowMs currentSupply) (10 ^ 18) *
          10000 / 10000 := by
          exact Int.ediv_le_ediv (by norm_num) (mul_le_mul_of_nonneg_left (hb200.trans (by norm_num)) hout)
      _ = Int.tdiv (tradeAmount * priceWei p coinData tradingVolume24h lastTradeTime nowMs currentSupply) (10 ^ 18) := by
          exact Int.mul_ediv_cancel _ (by norm_num)
  simp only [calculateTradePrice, if_neg hbounds, calculatePrice,
    if_neg (not_le.mpr hcsT), if_neg (not_le.mpr hnsT)] at hok
  split at hok <;> split at hok <;>
    first
      | (simp only [Except.ok.injEq] at hok
         subst hok
         exact ⟨hfee_le, sub_nonneg.mpr hfee_le⟩)
      | simp at hok

/-- Witness for C10: the concrete buy of 1000 at supply one million under
default parameters succeeds, and its quote satisfies the fee invariants. -/
theorem c10_fee_invariants_witness :
    calculateTradePrice defaultParams (10 ^ 6) 1000 true none none none 0 0 =
      .ok { inputAmount := 1000
            outputAmount := 100
            priceImpact := JsNum.fin (66800233734001 / 33366700033366700)
            minimumReceived := 99
            fee := 1
            deadline := 1800 } ∧
    ((1 / 200 ≤ calculateDynamicFeeRate none none ∧
        calculateDynamicFeeRate none none ≤ 1 / 50) ∧
      (1 : ℤ) ≤ 100 ∧ (0 : ℤ) ≤ 99) := by
  have hmax : max ((1 : ℚ) / 10000) (1 / 10000 * (1 / 10)) = 1 / 10000 :=
    max_eq_left (by norm_num)
  have hP1 : priceWei defaultParams none none none 0 (10 ^ 6) = 100100100100100100 := by
    norm_num [priceWei, calculatePriceRaw, calculateDynamicK, defaultParams, hmax,
      Int.floor_eq_iff]
  have hP2 : priceWei defaultParams none none none 0 (10 ^ 6 + 1000) =
      100300500801302103 := by
    norm_num [priceWei, calculatePriceRaw, calculateDynamicK, defaultParams, hmax,
      Int.floor_eq_iff]
  have hC1 : calculatePrice defaultParams none none none 0 (10 ^ 6) =
      .ok 100100100100100100 := by
    rw [calculatePrice, if_neg (by norm_num [defaultParams]), hP1]
  have hC2 : calculatePrice defaultParams none none none 0 (10 ^ 6 + 1000) =
      .ok 100300500801302103 := by
    rw [calculatePrice, if_neg (by norm_num [defaultParams]), hP2]
  have hadj : calculateAdjustedMaxSlippage defaultParams none none = 1 / 20 := by
    norm_num [calculateAdjustedMaxSlippage, defaultParams, min_def]
  have hfr : calculateDynamicFeeRate none none = 1 / 100 := by
    norm_num [calculateDynamicFeeRate, max_def]
  have key : calculateTradePrice defaultParams (10 ^ 6) 1000 true none none none 0 0 =
      .ok { inputAmount := 1000
            outputAmount := 100
            priceImpact := JsNum.fin (66800233734001 / 33366700033366700)
            minimumReceived := 99
            fee := 1
            deadline := 1800 } := by
    simp only [calculateTradePrice, if_true]
    rw [if_neg (by norm_num [defaultParams])]
    rw [hC1, hC2]
    norm_num [hadj, hfr, jsDivide, JsNum.gtQ]
    refine ⟨by decide, by decide, by decide⟩
  exact ⟨key, (c10_fee_invariants defaultParams (10 ^ 6) 1000 true none none none 0 0 _
    (by norm_num [defaultParams]) (by norm_num [defaultParams])
    (by norm_num [defaultParams]) (by norm_num) key).imp id (fun hq => hq)⟩

/-- The clamped price bound the optimizer uses:
`currentPrice * BigInt(Math.floor((1 + maxPriceImpact) * 1e18)) / BigInt(1e18)`. -/
def maxQuotePrice (p : CurveParams) (coinData : Option CreatorCoin)
    (tradingVolume24h : Option ℤ) (lastTradeTime : Option ℚ) (nowMs : ℚ)
    (supply : ℤ) (maxPriceImpact : ℚ) : ℤ :=
  Int.tdiv (priceWei p coinData tradingVolume24h lastTradeTime nowMs supply *
    ⌊(1 + maxPriceImpact) * 10 ^ 18⌋) (10 ^ 18)

/-- For a nonnegative impact bound, the clamped price bound is at least the
current price, so a zero-size trade is always feasible. -/
lemma maxQuotePrice_ge (p : CurveParams) (coinData : Option CreatorCoin)
    (tradingVolume24h : Option ℤ) (lastTradeTime : Option ℚ) (nowMs : ℚ)
    {supply : ℤ} {maxPriceImpact : ℚ} (hb : 0 < p.baseK)
    (hc : 0 < p.creatorMultiplier) (hv : 0 < p.volumeMultiplier)
    (hsT : supply < p.totalSupply) (hmi : 0 ≤ maxPriceImpact) :
    priceWei p coinData tradingVolume24h lastTradeTime nowMs supply ≤
      maxQuotePrice p coinData tradingVolume24h lastTradeTime nowMs supply maxPriceImpact := by
  have hP0 : 0 ≤ priceWei p coinData tradingVolume24h lastTradeTime nowMs supply :=
    priceWei_nonneg p coinData tradingVolume24h lastTradeTime nowMs hb hc hv hsT
  have hF : (10 ^ 18 : ℤ) ≤ ⌊(1 + maxPriceImpact) * 10 ^ 18⌋ := by
    refine Int.le_floor.mpr ?_
    push_cast
    nlinarith
  have hFn : (0 : ℤ) ≤ ⌊(1 + maxPriceImpact) * 10 ^ 18⌋ := le_trans (by norm_num) hF
  rw [maxQuotePrice, Int.tdiv_eq_ediv (mul_nonneg hP0 hFn) (by norm_num)]
  calc priceWei p coinData tradingVolume24h lastTradeTime nowMs supply =
      priceWei p coinData tradingVolume24h lastTradeTime nowMs supply * 10 ^ 18 / 10 ^ 18 := by
        rw [Int.mul_ediv_cancel _ (by norm_num)]
    _ ≤ priceWei p coinData tradingVolume24h lastTradeTime nowMs supply *
          ⌊(1 + maxPriceImpact) * 10 ^ 18⌋ / 10 ^ 18 :=
        Int.ediv_le_ediv (by norm_num) (mul_le_mul_of_nonneg_left hF hP0)

/-- When every trade size up to the cap keeps the price within the bound,
the binary search walks its lower end up to the cap, probes the cap itself,
and the price call throws the invalid-supply error. -/
lemma optLoop_error (p : CurveParams) (coinData : Option CreatorCoin)
    (tradingVolume24h : Option ℤ) (lastTradeTime : Option ℚ) (nowMs : ℚ)
    (supply maxPrice : ℤ)
    (hall : ∀ t : ℤ, 0 ≤ t → t ≤ p.totalSupply - supply - 1 →
      priceWei p coinData tradingVolume24h lastTradeTime nowMs (supply + t) ≤ maxPrice) :
    ∀ n : ℕ, ∀ low optimalSize : ℤ,
      (p.totalSupply - supply + 1 - low).toNat ≤ n →
      0 ≤ low → low ≤ p.totalSupply - supply →
      optLoop p coinData tradingVolume24h lastTradeTime nowMs supply maxPrice low
        (p.totalSupply - supply) optimalSize = .error .invalidSupply := by
  intro n
  induction n with
  | zero =>
    intro low optimalSize hm h0 hle
    exfalso
    omega
  | succ n ih =>
    intro low optimalSize hm h0 hle
    rw [optLoop.eq_def, dif_pos hle]
    rcases eq_or_lt_of_le hle with heq | hlt
    · have hmid : (low + (p.totalSupply - supply)).tdiv 2 = low := by
        rw [← heq, Int.tdiv_eq_ediv (by omega) (by norm_num)]
        omega
      have hcp : calculatePrice p coinData tradingVolume24h lastTradeTime nowMs
          (supply + (low + (p.totalSupply - supply)).tdiv 2) = .error .invalidSupply := by
        rw [hmid, calculatePrice, if_pos (by omega)]
      simp only [hcp]
    · have hdv : (low + (p.totalSupply - supply)).tdiv 2 =
          (low + (p.totalSupply - supply)) / 2 :=
        Int.tdiv_eq_ediv (by omega) (by norm_num)
      have hmid1 : low ≤ (low + (p.totalSupply - supply)).tdiv 2 := by omega
      have hmid2 : (low + (p.totalSupply - supply)).tdiv 2 ≤ p.totalSupply - supply - 1 := by
        omega
      have hP := hall ((low + (p.totalSupply - supply)).tdiv 2) (by omega) hmid2
      have hcp : calculatePrice p coinData tradingVolume24h lastTradeTime nowMs
          (supply + (low + (p.totalSupply - supply)).tdiv 2) =
          .ok (priceWei p coinData tradingVolume24h lastTradeTime nowMs
            (supply + (low + (p.totalSupply - supply)).tdiv 2)) := by
        rw [calculatePrice, if_neg (not_le.mpr (by omega))]
      simp only [hcp, if_pos hP]
      exact ih _ _ (by omega) (by omega) (by omega)

/-- When some feasible-infeasible boundary `M` exists strictly inside the
search range, the binary search returns exactly `M`, the largest trade size
whose price stays within the bound. -/
lemma optLoop_ok (p : CurveParams) (coinData : Option CreatorCoin)
    (tradingVolume24h : Option ℤ) (lastTradeTime : Option ℚ) (nowMs : ℚ)
    (supply maxPrice : ℤ)
    (hmono : ∀ t1 t2 : ℤ, 0 ≤ t1 → t1 ≤ t2 → t2 ≤ p.totalSupply - supply - 1 →
      priceWei p coinData tradingVolume24h lastTradeTime nowMs (supply + t1) ≤
        priceWei p coinData tradingVolume24h lastTradeTime nowMs (supply + t2))
    (M : ℤ) (hM0 : 0 ≤ M) (hMB : M ≤ p.totalSupply - supply - 2)
    (hPM : priceWei p coinData tradingVolume24h lastTradeTime nowMs (supply + M) ≤ maxPrice)
    (hMmax : ∀ t : ℤ, M < t → t ≤ p.totalSupply - supply - 1 →
      ¬ priceWei p coinData tradingVolume24h lastTradeTime nowMs (supply + t) ≤ maxPrice) :
    ∀ n : ℕ, ∀ low high optimalSize : ℤ,
      (high + 1 - low).toNat ≤ n →
      0 ≤ low →
      ((low = 0 ∧ optimalSize = 0) ∨ optimalSize = low - 1) →
      (∀ t : ℤ, 0 ≤ t → t < low →
        priceWei p coinData tradingVolume24h lastTradeTime nowMs (supply + t) ≤ maxPrice) →
      high ≤ p.totalSupply - supply →
      (∀ t : ℤ, high < t → t ≤ p.totalSupply - supply - 1 →
        ¬ priceWei p coinData tradingVolume24h lastTradeTime nowMs (supply + t) ≤ maxPrice) →
      optLoop p coinData tradingVolume24h lastTradeTime nowMs supply maxPrice low high
        optimalSize = .ok M := by
  intro n
  induction n with
  | zero =>
    intro low high optimalSize hm h0 hopt hinv1 hhigh hinv2
    have hlowM : low ≤ M + 1 := by
      by_contra hgt
      push_neg at hgt
      exact hMmax (M + 1) (by omega) (by omega) (hinv1 (M + 1) (by omega) (by omega))
    have hMh : M ≤ high := by
      by_contra hgt
      push_neg at hgt
      exact hinv2 M hgt (by omega) hPM
    have hexit : ¬ low ≤ high := by omega
    rw [optLoop.eq_def, dif_neg hexit]
    congr 1
    omega
  | succ n ih =>
    intro low high optimalSize hm h0 hopt hinv1 hhigh hinv2
    have hlowM : low ≤ M + 1 := by
      by_contra hgt
      push_neg at hgt
      exact hMmax (M + 1) (by omega) (by omega) (hinv1 (M + 1) (by omega) (by omega))
    have hMh : M ≤ high := by
      by_contra hgt
      push_neg at hgt
      exact hinv2 M hgt (by omega) hPM
    by_cases hlh : low ≤ high
    · rw [optLoop.eq_def, dif_pos hlh]
      have hdv : (low + high).tdiv 2 = (low + high) / 2 :=
        Int.tdiv_eq_ediv (by omega) (by norm_num)
      have hmid1 : low ≤ (low + high).tdiv 2 := by omega
      have hmid2 : (low + high).tdiv 2 ≤ high := by omega
      have hmidB : (low + high).tdiv 2 ≤ p.totalSupply - supply - 1 := by omega
      have hcp : calculatePrice p coinData tradingVolume24h lastTradeTime nowMs
          (supply + (low + high).tdiv 2) =
          .ok (priceWei p coinData tradingVolume24h lastTradeTime nowMs
            (supply + (low + high).tdiv 2)) := by
        rw [calculatePrice, if_neg (not_le.mpr (by omega))]
      by_cases hP : priceWei p coinData tradingVolume24h lastTradeTime nowMs
          (supply + (low + high).tdiv 2) ≤ maxPrice
      · simp only [hcp, if_pos hP]
        refine ih ((low + high).tdiv 2 + 1) high ((low + high).tdiv 2) (by omega) (by omega)
          (Or.inr (by omega)) ?_ hhigh hinv2
        intro t ht0 htm
        exact le_trans (hmono t ((low + high).tdiv 2) ht0 (by omega) hmidB) hP
      · simp only [hcp, if_neg hP]
        refine ih low ((low + high).tdiv 2 - 1) optimalSize (by omega) h0 hopt hinv1
          (by omega) ?_
        intro t htm htB hPt
        exact hP (le_trans (hmono ((low + high).tdiv 2) t (by omega) (by omega) htB) hPt)
    · rw [optLoop.eq_def, dif_neg hlh]
      congr 1
      omega

/-- Claim C4 (amended): for a valid supply, positive parameters and a
nonnegative impact bound, `calculateOptimalTradeSize` either returns the
largest trade size `M` in `[0, cap - supply - 1]` whose resulting price
stays at or below the truncated bound
`currentPrice * floor((1 + maxImpact) * 1e18) / 1e18`, or — when every trade
size strictly inside the range satisfies the bound — probes the cap itself
and fails with the invalid-supply error instead of returning. -/
theorem c4_optimal_trade_size (p : CurveParams) (supply : ℤ) (maxPriceImpact : ℚ)
    (coinData : Option CreatorCoin) (tradingVolume24h : Option ℤ)
    (lastTradeTime : Option ℚ) (nowMs : ℚ)
    (hb : 0 < p.baseK) (hc : 0 < p.creatorMultiplier) (hv : 0 < p.volumeMultiplier)
    (hs0 : 0 ≤ supply) (hsT : supply < p.totalSupply) (hmi : 0 ≤ maxPriceImpact) :
    (∃ M : ℤ,
        calculateOptimalTradeSize p supply maxPriceImpact coinData tradingVolume24h
          lastTradeTime nowMs = .ok M ∧
        0 ≤ M ∧ M ≤ p.totalSupply - supply - 1 ∧
        priceWei p coinData tradingVolume24h lastTradeTime nowMs (supply + M) ≤
          maxQuotePrice p coinData tradingVolume24h lastTradeTime nowMs supply maxPriceImpact ∧
        (∀ t : ℤ, M < t → t ≤ p.totalSupply - supply - 1 →
          ¬ priceWei p coinData tradingVolume24h lastTradeTime nowMs (supply + t) ≤
            maxQuotePrice p coinData tradingVolume24h lastTradeTime nowMs supply maxPriceImpact)) ∨
    ((∀ t : ℤ, 0 ≤ t → t ≤ p.totalSupply - supply - 1 →
        priceWei p coinData tradingVolume24h lastTradeTime nowMs (supply + t) ≤
          maxQuotePrice p coinData tradingVolume24h lastTradeTime nowMs supply maxPriceImpact) ∧
      calculateOptimalTradeSize p supply maxPriceImpact coinData tradingVolume24h
        lastTradeTime nowMs = .error .invalidSupply) := by
  have hcp0 : calculatePrice p coinData tradingVolume24h lastTradeTime nowMs supply =
      .ok (priceWei p coinData tradingVolume24h lastTradeTime nowMs supply) := by
    rw [calculatePrice, if_neg (not_le.mpr hsT)]
  have hunf : calculateOptimalTradeSize p supply maxPriceImpact coinData tradingVolume24h
      lastTradeTime nowMs =
      optLoop p coinData tradingVolume24h lastTradeTime nowMs supply
        (maxQuotePrice p coinData tradingVolume24h lastTradeTime nowMs supply maxPriceImpact)
        0 (p.totalSupply - supply) 0 := by
    simp only [calculateOptimalTradeSize, hcp0, maxQuotePrice]
  have hmono : ∀ t1 t2 : ℤ, 0 ≤ t1 → t1 ≤ t2 → t2 ≤ p.totalSupply - supply - 1 →
      priceWei p coinData tradingVolume24h lastTradeTime nowMs (supply + t1) ≤
        priceWei p coinData tradingVolume24h lastTradeTime nowMs (supply + t2) := by
    intro t1 t2 ht1 h12 ht2
    exact priceWei_mono p coinData tradingVolume24h lastTradeTime nowMs hb hc hv
      (by omega) (by omega) (by omega)
  have hP0 : priceWei p coinData tradingVolume24h lastTradeTime nowMs (supply + 0) ≤
      maxQuotePrice p coinData tradingVolume24h lastTradeTime nowMs supply maxPriceImpact := by
    rw [add_zero]
    exact maxQuotePrice_ge p coinData tradingVolume24h lastTradeTime nowMs hb hc hv hsT hmi
  by_cases hall : ∀ t : ℤ, 0 ≤ t → t ≤ p.totalSupply - supply - 1 →
      priceWei p coinData tradingVolume24h lastTradeTime nowMs (supply + t) ≤
        maxQuotePrice p coinData tradingVolume24h lastTradeTime nowMs supply maxPriceImpact
  · refine Or.inr ⟨hall, ?_⟩
    rw [hunf]
    exact optLoop_error p coinData tradingVolume24h lastTradeTime nowMs supply _ hall
      (p.totalSupply - supply + 1).toNat 0 0 (by omega) (le_refl 0) (by omega)
  · push_neg at hall
    obtain ⟨t0, ht00, ht0B, ht0P⟩ := hall
    obtain ⟨M, ⟨hM0, hMB1, hPM⟩, hub⟩ :=
      Int.exists_greatest_of_bdd
        (P := fun z => 0 ≤ z ∧ z ≤ p.totalSupply - supply - 1 ∧
          priceWei p coinData tradingVolume24h lastTradeTime nowMs (supply + z) ≤
            maxQuotePrice p coinData tradingVolume24h lastTradeTime nowMs supply maxPriceImpact)
        ⟨p.totalSupply - supply - 1, fun z hz => hz.2.1⟩
        ⟨0, le_refl 0, by omega, hP0⟩
    have hMmax : ∀ t : ℤ, M < t → t ≤ p.totalSupply - supply - 1 →
        ¬ priceWei p coinData tradingVolume24h lastTradeTime nowMs (supply + t) ≤
          maxQuotePrice p coinData tradingVolume24h lastTradeTime nowMs supply maxPriceImpact := by
      intro t hMt htB hPt
      exact absurd (hub t ⟨by omega, htB, hPt⟩) (by omega)
    have hMt0 : M < t0 := by
      by_contra hge
      push_neg at hge
      exact absurd (le_trans (hmono t0 M ht00 hge hMB1) hPM) (not_le.mpr ht0P)
    refine Or.inl ⟨M, ?_, hM0, hMB1, hPM, hMmax⟩
    rw [hunf]
    exact optLoop_ok p coinData tradingVolume24h lastTradeTime nowMs supply _ hmono M hM0
      (by omega) hPM hMmax (p.totalSupply - supply + 1).toNat 0 (p.totalSupply - supply) 0
      (by omega) (le_refl 0) (Or.inl ⟨rfl, rfl⟩) (fun t ht0 htl => absurd htl (by omega))
      (le_refl _) (fun t htB htB1 => by omega)

/-- Witness for C4 at supply 0 with the default parameters and a one-percent
impact bound. -/
theorem c4_optimal_trade_size_witness :
    0 < defaultParams.baseK ∧ 0 < defaultParams.creatorMultiplier ∧
    0 < defaultParams.volumeMultiplier ∧ (0 : ℤ) ≤ 0 ∧
    (0 : ℤ) < defaultParams.totalSupply ∧ (0 : ℚ) ≤ 1 / 100 ∧
    ((∃ M : ℤ,
        calculateOptimalTradeSize defaultParams 0 (1 / 100) none none none 0 = .ok M ∧
        0 ≤ M ∧ M ≤ defaultParams.totalSupply - 0 - 1 ∧
        priceWei defaultParams none none none 0 (0 + M) ≤
          maxQuotePrice defaultParams none none none 0 0 (1 / 100) ∧
        (∀ t : ℤ, M < t → t ≤ defaultParams.totalSupply - 0 - 1 →
          ¬ priceWei defaultParams none none none 0 (0 + t) ≤
            maxQuotePrice defaultParams none none none 0 0 (1 / 100))) ∨
      ((∀ t : ℤ, 0 ≤ t → t ≤ defaultParams.totalSupply - 0 - 1 →
          priceWei defaultParams none none none 0 (0 + t) ≤
            maxQuotePrice defaultParams none none none 0 0 (1 / 100)) ∧
        calculateOptimalTradeSize defaultParams 0 (1 / 100) none none none 0 =
          .error .invalidSupply)) :=
  ⟨by norm_num [defaultParams], by norm_num [defaultParams], by norm_num [defaultParams],
   le_refl 0, by norm_num [defaultParams], by norm_num,
   c4_optimal_trade_size defaultParams 0 (1 / 100) none none none 0
     (by norm_num [defaultParams]) (by norm_num [defaultParams])
     (by norm_num [defaultParams]) (le_refl 0) (by norm_num [defaultParams])
     (by norm_num)⟩

/-- Counterexample to C4 as stated: one step below the cap, with the default
parameters, every in-range size is within the bound, the search probes the
cap, and the call throws `InvalidSupplyError` instead of returning a size. -/
theorem c4_optimal_trade_size_counterexample :
    (0 : ℤ) ≤ 10 ^ 9 - 1 ∧ (10 ^ 9 - 1 : ℤ) < defaultParams.totalSupply ∧
    (0 : ℚ) ≤ 1 / 100 ∧
    calculateOptimalTradeSize defaultParams (10 ^ 9 - 1) (1 / 100) none none none 0 =
      .error .invalidSupply := by
  have hsT : (10 ^ 9 - 1 : ℤ) < defaultParams.totalSupply := by norm_num [defaultParams]
  have hcp0 : calculatePrice defaultParams none none none 0 (10 ^ 9 - 1) =
      .ok (priceWei defaultParams none none none 0 (10 ^ 9 - 1)) := by
    rw [calculatePrice, if_neg (not_le.mpr hsT)]
  have hall : ∀ t : ℤ, 0 ≤ t → t ≤ defaultParams.totalSupply - (10 ^ 9 - 1) - 1 →
      priceWei defaultParams none none none 0 (10 ^ 9 - 1 + t) ≤
        maxQuotePrice defaultParams none none none 0 (10 ^ 9 - 1) (1 / 100) := by
    intro t ht0 htB
    have ht : t = 0 := by
      have : defaultParams.totalSupply = 10 ^ 9 := by norm_num [defaultParams]
      omega
    subst ht
    rw [add_zero]
    exact maxQuotePrice_ge defaultParams none none none 0 (by norm_num [defaultParams])
      (by norm_num [defaultParams]) (by norm_num [defaultParams]) hsT (by norm_num)
  refine ⟨by norm_num, hsT, by norm_num, ?_⟩
  have hunf : calculateOptimalTradeSize defaultParams (10 ^ 9 - 1) (1 / 100) none none none 0 =
      optLoop defaultParams none none none 0 (10 ^ 9 - 1)
        (maxQuotePrice defaultParams none none none 0 (10 ^ 9 - 1) (1 / 100))
        0 (defaultParams.totalSupply - (10 ^ 9 - 1)) 0 := by
    simp only [calculateOptimalTradeSize, hcp0, maxQuotePrice]
  rw [hunf]
  exact optLoop_error defaultParams none none none 0 (10 ^ 9 - 1) _ hall
    (defaultParams.totalSupply - (10 ^ 9 - 1) + 1).toNat 0 0 (by omega) (le_refl 0)
    (by norm_num [defaultParams])
